import Mathlib

/-!
# Verification of the NarraLeaf/Sound session/channel/token/cache subsystem

This file shallowly embeds the core data model and operations of the
`@narraleaf/sound` web-audio library and proves properties of the embedding.

Conventions of the embedding:
* Volumes and durations are rationals (`ℚ`); the source's JS numbers are used
  only for volumes in `[0,1]` and for millisecond durations, where exact
  rational arithmetic is faithful.
* `GainNode.gain` is modelled as either a constant value or a scheduled linear
  ramp (`GainVal`); `cancelScheduledValues` followed by a value write collapses
  it back to a constant.
* Promise resolution is modelled explicitly: a fade's `finished` promise is a
  `resolved` flag, and a continuation attached by `stop({fadeDuration})` is a
  pending microtask recorded in the token state, executed by `runTasks`
  (promise continuations run before any further timer fires).
* `setTimeout` callbacks (fade completion) are explicit environment-driven
  steps (`fireFadeTimeout`), never fired implicitly.
* Object identity for decoded-audio cache entries and promises is modelled by
  natural-number ids.
* Position/rate bookkeeping of `SoundToken` (`startTime`, `pauseTime`, `rate`)
  and the audio-engine primitives behind `AudioSourceController` are omitted:
  no claim below depends on them.
-/

namespace Sound

/-- JS `Math.max` on exact rationals. -/
def jsMax (x y : ℚ) : ℚ := if x ≤ y then y else x

/-- JS `Math.min` on exact rationals. -/
def jsMin (x y : ℚ) : ℚ := if y ≤ x then y else x

/-- Clamp a rational to `[0,1]`, the JS `Math.max(0, Math.min(1, v))` used
throughout the source. -/
def clamp01 (v : ℚ) : ℚ := jsMax 0 (jsMin 1 v)

/-! ## CachedAudioImpl (`src/sound/cachedAudioImpl.ts`)

A decoded, reference-counted audio payload.  The decoded `AudioBuffer` is
opaque to every claim, so it is modelled as a bare id. -/

structure CachedAudioImpl where
  audioBuffer : Nat
  alive : Bool := true
  refCount : Nat := 0
deriving DecidableEq, Repr

namespace CachedAudioImpl

/-- Source `addRef()`: increment the reference count. -/
def addRef (c : CachedAudioImpl) : CachedAudioImpl :=
  { c with refCount := c.refCount + 1 }

/-- Source `releaseRef()`: decrement the reference count, only if positive. -/
def releaseRef (c : CachedAudioImpl) : CachedAudioImpl :=
  if c.refCount > 0 then { c with refCount := c.refCount - 1 } else c

/-- Source `getRefCount()`. -/
def getRefCount (c : CachedAudioImpl) : Nat := c.refCount

/-- Source `unload()`: marks the entry dead only when no token holds a reference;
otherwise silently does nothing. -/
def unload (c : CachedAudioImpl) : CachedAudioImpl :=
  if c.refCount > 0 then c else { c with alive := false }

/-- Source `forceUnload()`: unconditionally marks the entry dead and resets the
reference count. -/
def forceUnload (c : CachedAudioImpl) : CachedAudioImpl :=
  { c with alive := false, refCount := 0 }

/-- Source `isAlive()`. -/
def isAlive (c : CachedAudioImpl) : Bool := c.alive

/-- Source `raw()`: returns the decoded buffer, throwing once the entry has been
unloaded.  The function reads the state and never mutates it. -/
def raw (c : CachedAudioImpl) : Except String Nat :=
  if !c.alive then .error ("CachedAudio has been unloaded.")
  else .ok c.audioBuffer

end CachedAudioImpl

/-! ## Load-mode resolution (`Sound.resolveLoadMode` in `src/sound/sound.ts`)

`"auto"` probes the locator with a HEAD request; the probe either throws or
yields a response with an `ok` flag and an optional `Content-Length` header.
JS `parseInt(s, 10)` semantics: leading whitespace skipped, optional sign,
longest leading digit run; `NaN` when no digit is found. -/

/-- Source `10 * 1024 * 1024` bytes, the `AUTO_LOAD_THRESHOLD` constant. -/
def AUTO_LOAD_THRESHOLD : Int := 10 * 1024 * 1024

inductive ReqLoadMode
  | stream
  | full
  | auto
deriving DecidableEq, Repr

inductive LoadMode
  | stream
  | full
deriving DecidableEq, Repr

structure ProbeResponse where
  ok : Bool
  contentLength : Option String
deriving DecidableEq, Repr

/-- Outcome of the HEAD size probe: the `fetch` either throws or produces a
response. -/
inductive ProbeOutcome
  | throws
  | resp (r : ProbeResponse)
deriving DecidableEq, Repr

/-- Numeric value of a digit run (most significant first). -/
def digitsVal (cs : List Char) : Nat :=
  cs.foldl (fun acc c => acc * 10 + (c.toNat - '0'.toNat)) 0

/-- JS `parseInt(s, 10)`: `none` models `NaN`. -/
def jsParseIntDec (s : String) : Option Int :=
  let cs := s.toList.dropWhile Char.isWhitespace
  let signAndRest : Int × List Char :=
    match cs with
    | '-' :: rest => (-1, rest)
    | '+' :: rest => (1, rest)
    | _ => (1, cs)
  let digits := signAndRest.2.takeWhile Char.isDigit
  if digits.isEmpty then none
  else some (signAndRest.1 * (digitsVal digits : Int))

/-- Source `Sound.resolveLoadMode(path, mode)`: `"stream"`/`"full"` verbatim; `"auto"`
decides from the probed size with fallback to `"stream"`.  The JS
`if (!contentLength)` treats both a missing header and the empty string as
falsy. -/
def resolveLoadMode (mode : ReqLoadMode) (probe : ProbeOutcome) : LoadMode :=
  match mode with
  | .stream => .stream
  | .full => .full
  | .auto =>
    match probe with
    | .throws => .stream
    | .resp r =>
      if !r.ok then .stream
      else
        match r.contentLength with
        | none => .stream
        | some cl =>
          if cl = "" then .stream
          else
            match jsParseIntDec cl with
            | none => .stream
            | some size => if size < AUTO_LOAD_THRESHOLD then .full else .stream

/-! ## AudioCache (`src/sound/sound.ts`, class `AudioCache`)

`load(path)` first returns a live cached entry, else joins an in-flight load
for the same path, else registers a fresh promise and starts one
fetch-and-decode (`doLoad`).  Entries and promises carry ids; `doLoadCount`
counts started fetch-and-decode operations.  The `try { ... } finally`
around the first caller's `await` is the pair of settlement steps
`settleOk`/`settleErr`: both delete the in-flight marker, success also stores
the freshly constructed (alive) entry in the cache map. -/

structure AudioCache where
  cache : List (String × Nat)
  aliveEntries : List Nat
  loadingPromises : List (String × Nat)
  nextPromise : Nat := 0
  doLoadCount : Nat := 0
deriving DecidableEq, Repr

/-- What a `load(path)` call hands back to its caller: a live cached entry, a
join onto an in-flight promise, or a freshly started promise. -/
inductive LoadResult
  | hit (entry : Nat)
  | joined (pid : Nat)
  | started (pid : Nat)
deriving DecidableEq, Repr

/-- The value a caller eventually observes, given the assignment `settle` of
settlement values to promise ids: awaiting equal promises yields the identical
object. -/
def LoadResult.value (r : LoadResult) (settle : Nat → Nat) : Nat :=
  match r with
  | .hit e => e
  | .joined p => settle p
  | .started p => settle p

namespace AudioCache

/-- Second half of `load`: the in-flight check and the registration of a new
`doLoad` promise. -/
def loadFresh (s : AudioCache) (path : String) : LoadResult × AudioCache :=
  match s.loadingPromises.lookup path with
  | some pid => (.joined pid, s)
  | none =>
    let pid := s.nextPromise
    (.started pid,
      { s with
        loadingPromises := (path, pid) :: s.loadingPromises,
        nextPromise := pid + 1,
        doLoadCount := s.doLoadCount + 1 })

/-- Source `load(path)` up to its first suspension point: the live-entry check, the
in-flight check, and the registration of a fresh load. -/
def load (s : AudioCache) (path : String) : LoadResult × AudioCache :=
  match s.cache.lookup path with
  | some e => if e ∈ s.aliveEntries then (.hit e, s) else loadFresh s path
  | none => loadFresh s path

/-- Resumption of the first caller after `await promise` succeeds with the
decoded entry: `cache.set(path, result)` then (finally) the in-flight marker
is deleted. -/
def settleOk (s : AudioCache) (path : String) (entry : Nat) : AudioCache :=
  { s with
    cache := (path, entry) :: s.cache.filter (fun kv => kv.1 ≠ path),
    aliveEntries := entry :: s.aliveEntries,
    loadingPromises := s.loadingPromises.filter (fun kv => kv.1 ≠ path) }

/-- Resumption of the first caller after `await promise` rejects: only the
(finally) deletion of the in-flight marker runs; the rejection itself
propagates through the shared promise to every caller holding it. -/
def settleErr (s : AudioCache) (path : String) : AudioCache :=
  { s with loadingPromises := s.loadingPromises.filter (fun kv => kv.1 ≠ path) }

end AudioCache

/-! ## Channel (`src/sound/channel.ts`)

A channel node: volume and mute scale the node's own gain stage, `tokens`
is the insertion-ordered set of attached tokens (JS `Set` iterates in
insertion order), `limit` the admission ceiling (`Infinity` by default, hence
`ℕ∞`).  Sub-channel bodies are abstracted to their names: no claim below
depends on the recursive contents of a sub-channel, only on presence of a
sibling name and on the removed-guard of each operation.  Operations that may
throw return `Except`. -/

structure Channel where
  name : String
  volume : ℚ
  muted : Bool := false
  removed : Bool := false
  gain : ℚ
  limit : ℕ∞
  tokens : List Nat := []
  subNames : List String := []
deriving DecidableEq

namespace Channel

/-- Source `ensureNotRemoved()`: throw when the channel has been removed. -/
def ensureNotRemoved (c : Channel) : Except String Unit :=
  if c.removed then
    .error ("Channel has been removed and cannot be used.")
  else .ok ()

/-- Source `play(source)` at the channel level, up to the admission decision: when
the attached-token count has reached the limit, the oldest-attached token is
stopped — its synchronous `stop` emission fires the channel's
`once("stop")` cleanup listener, deleting it from the set — before the new
token is created and attached.  Returns the updated channel and the evicted
token, if any.  (Token construction itself is the audio provider's job and is
opaque here; `newTok` is the id of the fresh token.) -/
def play (c : Channel) (newTok : Nat) : Except String (Channel × Option Nat) := do
  c.ensureNotRemoved
  if ((c.tokens.length : ℕ∞) ≥ c.limit) then
    match c.tokens with
    | [] => pure ({ c with tokens := [newTok] }, none)
    | oldest :: rest => pure ({ c with tokens := rest ++ [newTok] }, some oldest)
  else
    pure ({ c with tokens := c.tokens ++ [newTok] }, none)

/-- Source `createChannel(name)`: duplicate-sibling check after the removed-guard.
(The session-wide `checkChannelLimit` runs through the audio provider and is
outside this node-local model.) -/
def createChannel (c : Channel) (n : String) : Except String Channel := do
  c.ensureNotRemoved
  if n ∈ c.subNames then
    .error ("Channel already exists.")
  else
    pure { c with subNames := c.subNames ++ [n] }

/-- Source `getChannel(name)`: lookup, guarded. -/
def getChannel (c : Channel) (n : String) : Except String (Option String) := do
  c.ensureNotRemoved
  pure (if n ∈ c.subNames then some n else none)

/-- Source `getChannels()`: guarded listing. -/
def getChannels (c : Channel) : Except String (List String) := do
  c.ensureNotRemoved
  pure c.subNames

/-- Source `setVolume(volume)`: guarded; clamps and, unless muted, writes the gain
stage. -/
def setVolume (c : Channel) (v : ℚ) : Except String Channel := do
  c.ensureNotRemoved
  let v := Sound.clamp01 v
  let c := { c with volume := v }
  pure (if !c.muted then { c with gain := v } else c)

/-- Source `getVolume()`: the source has no removed-guard here; the call never
throws. -/
def getVolume (c : Channel) : Except String ℚ :=
  .ok c.volume

/-- Source `mute(muted?)`: guarded; forces the gain stage to `0` or restores the
stored volume. -/
def mute (c : Channel) (b : Bool) : Except String Channel := do
  c.ensureNotRemoved
  pure { c with muted := b, gain := if b then 0 else c.volume }

/-- Source `unmute()` delegates to `mute(false)`. -/
def unmute (c : Channel) : Except String Channel :=
  c.mute false

/-- Source `isMuted()`: unguarded read. -/
def isMuted (c : Channel) : Except String Bool :=
  .ok c.muted

/-- Source `getTokens()`: guarded (descendants abstracted away in this node-local
model). -/
def getTokens (c : Channel) : Except String (List Nat) := do
  c.ensureNotRemoved
  pure c.tokens

/-- Source `isRemoved()`: unguarded read. -/
def isRemoved (c : Channel) : Except String Bool :=
  .ok c.removed

/-- Source `getName()`: unguarded read. -/
def getName (c : Channel) : Except String String :=
  .ok c.name

end Channel

/-! ## SoundToken and FadeTokenImpl (`src/sound/soundToken.ts`,
`src/sound/fadeTokenImpl.ts`)

The token's `gainNode.gain` is a `GainVal`; the `FadeTokenImpl` bound to a
token lives in the token's `fades` list (ids are list positions), so that the
1:1 `currentFade` link, cancellation of superseded fades, and the completion
promise are all explicit.  `resolved` is the settlement state of the
`finished` promise; `stopAttached` records that `stop({fadeDuration})`
attached its `doStop` continuation to that promise.  Events emitted by the
token are appended to `log`. -/

/-- The `gain` audio param: a plain value, or a scheduled linear ramp
(`setValueAtTime(a, now)` + `linearRampToValueAtTime(b, now + d)`). -/
inductive GainVal
  | const (v : ℚ)
  | ramp (a b : ℚ)
deriving DecidableEq, Repr

/-- Source `FadeTokenImpl`: target volume, three-valued completion state
(`cancelled` / `finishedInternal` / neither = running), the settlement flag of
its single-shot `finished` promise, and whether a deferred `doStop`
continuation hangs on that promise. -/
structure FadeTokenImpl where
  endVolume : ℚ
  cancelled : Bool := false
  finishedInternal : Bool := false
  resolved : Bool := false
  stopAttached : Bool := false
deriving DecidableEq, Repr

/-- Source `FadeToken.getTargetVolume()`. -/
def FadeTokenImpl.getTargetVolume (f : FadeTokenImpl) : ℚ := f.endVolume

/-- Source `FadeToken.isCancelled()`. -/
def FadeTokenImpl.isCancelled (f : FadeTokenImpl) : Bool := f.cancelled

/-- Source `FadeToken.isFinished()`. -/
def FadeTokenImpl.isFinished (f : FadeTokenImpl) : Bool := f.finishedInternal

/-- A pending microtask of the token: the `doStop` continuation that
`stop({fadeDuration})` chained onto a fade's `finished` promise. -/
inductive TokenTask
  | deferredStop
deriving DecidableEq, Repr

structure SoundToken where
  isPlaying : Bool := true
  isPaused : Bool := false
  isMuted : Bool := false
  volume : ℚ := 1
  gain : GainVal := .const 1
  currentFade : Option Nat := none
  fades : List FadeTokenImpl := []
  log : List String := []
  tasks : List TokenTask := []
deriving DecidableEq, Repr

namespace SoundToken

/-- Replace fade `fid` in the token's fade store. -/
def setFade (s : SoundToken) (fid : Nat) (f : FadeTokenImpl) : SoundToken :=
  { s with fades := s.fades.set fid f }

/-- Source `resolveFinished()` of fade `fid`: a single-shot promise settlement.  On
first settlement, a chained `doStop` continuation (if any) becomes a pending
microtask. -/
def resolveFade (s : SoundToken) (fid : Nat) : SoundToken :=
  match s.fades.get? fid with
  | none => s
  | some f =>
    if f.resolved then s
    else
      let s := s.setFade fid { f with resolved := true }
      if f.stopAttached then { s with tasks := s.tasks ++ [.deferredStop] }
      else s

/-- Source `FadeTokenImpl.cancel()`: no-op once cancelled or finished; otherwise
marks cancelled and resolves the `finished` promise. -/
def cancelFade (s : SoundToken) (fid : Nat) : SoundToken :=
  match s.fades.get? fid with
  | none => s
  | some f =>
    if f.cancelled || f.finishedInternal then s
    else (s.setFade fid { f with cancelled := true }).resolveFade fid

/-- Source `getVolume()`. -/
def getVolume (s : SoundToken) : ℚ := s.volume

/-- Source `setVolume(volume)`: cancels any ongoing fade (dropping the
`currentFade` link), clamps and stores the volume and — unless muted —
cancels scheduled automation and writes the gain. -/
def setVolume (s : SoundToken) (v : ℚ) : SoundToken :=
  let s :=
    match s.currentFade with
    | some fid => { s.cancelFade fid with currentFade := none }
    | none => s
  let v := clamp01 v
  let s := { s with volume := v }
  if !s.isMuted then { s with gain := .const v } else s

/-- Source `FadeTokenImpl.finish()`: no-op once finished; otherwise marks finished,
forces the token's volume to the target via `setVolume` (whose
cancel-current-fade step is then a no-op on this fade), and resolves the
`finished` promise. -/
def finishFade (s : SoundToken) (fid : Nat) : SoundToken :=
  match s.fades.get? fid with
  | none => s
  | some f =>
    if f.finishedInternal then s
    else
      let s := s.setFade fid { f with finishedInternal := true }
      let s := s.setVolume f.endVolume
      s.resolveFade fid

/-- Source `mute(muted?)`: stores the flag; an active, unresolved fade is
fast-forwarded — scheduled automation cancelled, stored volume set to the
fade target, gain written (0 when muting), the fade finished and detached;
otherwise the gain is simply scaled by 0 (mute) or restored (unmute). -/
def mute (s : SoundToken) (b : Bool) : SoundToken :=
  let s := { s with isMuted := b }
  match s.currentFade with
  | some fid =>
    match s.fades.get? fid with
    | some f =>
      if !f.isFinished && !f.isCancelled then
        let target := f.getTargetVolume
        let s := { s with volume := target,
                          gain := .const (if b then 0 else target) }
        let s := s.finishFade fid
        { s with currentFade := none }
      else
        { s with gain := .const (if b then 0 else s.volume) }
    | none => { s with gain := .const (if b then 0 else s.volume) }
  | none => { s with gain := .const (if b then 0 else s.volume) }

/-- Source `unmute()` delegates to `mute(false)`. -/
def unmute (s : SoundToken) : SoundToken := s.mute false

/-- The `if (this.currentFade) { this.currentFade.cancel(); }` prologue of
`fade`: cancel the ongoing fade without dropping the link. -/
def cancelCurrent (s : SoundToken) : SoundToken :=
  match s.currentFade with
  | some fid => s.cancelFade fid
  | none => s

/-- Source `fade(from, to, duration)`: cancels any ongoing fade (keeping the link,
which the zero-duration path's `setVolume` then drops), clamps the inputs;
zero duration sets the volume and returns an already-finished operation not
installed as current; positive duration writes `from`, installs a fresh
running operation as current and schedules the linear ramp.  Returns the
new state and the id of the returned `FadeToken`. -/
def fade (s : SoundToken) (a b d : ℚ) : SoundToken × Nat :=
  let s := s.cancelCurrent
  let a := clamp01 a
  let b := clamp01 b
  let d := jsMax 0 d
  if d = 0 then
    let s := s.setVolume b
    let fid := s.fades.length
    let s := { s with fades := s.fades ++ [({ endVolume := b } : FadeTokenImpl)] }
    (s.finishFade fid, fid)
  else
    let s := { s with volume := a }
    let s := if !s.isMuted then { s with gain := .const a } else s
    let fid := s.fades.length
    let s := { s with fades := s.fades ++ [({ endVolume := b } : FadeTokenImpl)],
                      currentFade := some fid }
    ({ s with gain := .ramp a b }, fid)

/-- The `setTimeout` callback scheduled by a positive-duration fade, fired by
the environment after the duration: when the operation is still unresolved it
commits the target volume, finishes the operation and detaches it. -/
def fireFadeTimeout (s : SoundToken) (fid : Nat) : SoundToken :=
  match s.fades.get? fid with
  | none => s
  | some f =>
    if !f.isCancelled && !f.isFinished then
      let s := { s with volume := f.endVolume }
      let s := s.finishFade fid
      { s with currentFade := none }
    else s

/-- Source `doStop()`: stops and destroys the source controller, clears the playing
flags and emits `"stop"`. -/
def doStop (s : SoundToken) : SoundToken :=
  { s with isPlaying := false, isPaused := false, log := s.log ++ ["stop"] }

/-- Source `stop({fadeDuration})`: positive fade duration starts a fade from the
current volume to 0 and chains the terminal `doStop` on its `finished`
promise; otherwise stops immediately. -/
def stop (s : SoundToken) (fadeDuration : ℚ) : SoundToken :=
  if fadeDuration > 0 then
    let (s, fid) := s.fade s.getVolume 0 fadeDuration
    match s.fades.get? fid with
    | some f => s.setFade fid { f with stopAttached := true }
    | none => s
  else
    s.doStop

/-- Drain the pending microtask queue: promise continuations (only
`doStop` continuations exist) run in order, before any further timer
fires. -/
def runTasks (s : SoundToken) : SoundToken :=
  s.tasks.foldl (fun st _t => st.doStop) { s with tasks := [] }

/-- A freshly constructed token with default options: playing, volume 1. -/
def initToken : SoundToken := {}

end SoundToken

/-! ## Concrete states used by witnesses and counterexamples -/

/-- The concrete removed channel used to settle C6. -/
def removedChannel : Channel :=
  { name := "bgm", volume := 1, muted := false, removed := true,
    gain := 1, limit := ((2 : ℕ) : ℕ∞), tokens := [], subNames := [] }

/-- The concrete channel used as C1's witness: limit 2, two attached
tokens. -/
def fullChannel : Channel :=
  { name := "sfx", volume := 1, muted := false, removed := false,
    gain := 1, limit := ((2 : ℕ) : ℕ∞), tokens := [10, 11], subNames := [] }

/-- The empty cache used as C7's witness state. -/
def emptyCache : AudioCache :=
  { cache := [], aliveEntries := [], loadingPromises := [] }

/-- The concrete pending fade-out stop used for C4's witness: a fresh token
on which `stop({fadeDuration: 500})` was called. -/
def pendingFadeStopToken : SoundToken := SoundToken.initToken.stop 500

/-- The concrete mid-fade state for C3: a fresh token (stored volume 1) on
which `fade(0, 1, 1000)` (a fade-in from silence) has been called and whose
fade has not yet completed. -/
def fadeMidToken : SoundToken := (SoundToken.initToken.fade 0 1 1000).1

/-! ## Theorems -/

theorem clamp01_mem (v : ℚ) : 0 ≤ clamp01 v ∧ clamp01 v ≤ 1 := by
  unfold clamp01 jsMax jsMin
  split_ifs <;> constructor <;> linarith

theorem clamp01_idem (v : ℚ) : clamp01 (clamp01 v) = clamp01 v := by
  unfold clamp01 jsMax jsMin
  split_ifs <;> linarith

/-- Deleting a key from an association list (the `Map.delete` of the source,
expressed as a filter) removes every binding for that key. -/
theorem lookup_filter_ne (l : List (String × Nat)) (p : String) :
    (l.filter (fun kv => kv.1 ≠ p)).lookup p = none := by
  induction l with
  | nil => rfl
  | cons kv t ih =>
    by_cases h : kv.1 = p
    · rw [List.filter_cons_of_neg (by simp [h])]
      exact ih
    · rw [List.filter_cons_of_pos (by simp [h])]
      have hne : (p == kv.1) = false := beq_eq_false_iff_ne.mpr (Ne.symm h)
      simp only [List.lookup, hne]
      exact ih

/-- C8: `unload()` marks the entry dead exactly when `refCount == 0` at the
time of the call and changes nothing (without error) when `refCount > 0`;
`forceUnload()` unconditionally marks the entry dead and resets `refCount`
to 0 regardless of active users. -/
theorem unload_respects_refcount_forceUnload_unconditional (c : CachedAudioImpl) :
    (c.refCount = 0 → c.unload = { c with alive := false }) ∧
    (0 < c.refCount → c.unload = c) ∧
    c.forceUnload.isAlive = false ∧ c.forceUnload.refCount = 0 := by
  refine ⟨fun h => ?_, fun h => ?_, rfl, rfl⟩
  · simp [CachedAudioImpl.unload, h]
  · simp [CachedAudioImpl.unload, Nat.not_eq_zero_of_lt h, h]

/-- C8 witness: on an entry with `refCount = 2`, `unload()` leaves
`isAlive() == true`; with `refCount = 0` it marks the entry dead; and
`forceUnload()` kills an entry with `refCount = 2`. -/
theorem unload_witness :
    ({ audioBuffer := 7, refCount := 2 : CachedAudioImpl }.unload).isAlive = true ∧
    ({ audioBuffer := 7, refCount := 0 : CachedAudioImpl }.unload).isAlive = false ∧
    ({ audioBuffer := 7, refCount := 2 : CachedAudioImpl }.forceUnload).isAlive = false := by
  refine ⟨?_, ?_,
    (unload_respects_refcount_forceUnload_unconditional
      { audioBuffer := 7, refCount := 2 }).2.2.1⟩
  · rw [(unload_respects_refcount_forceUnload_unconditional
      { audioBuffer := 7, refCount := 2 }).2.1 (by decide)]
    rfl
  · rw [(unload_respects_refcount_forceUnload_unconditional
      { audioBuffer := 7, refCount := 0 }).1 rfl]
    rfl

/-- C10: `raw()` returns the decoded buffer exactly when the entry is alive
and throws once it is not — in particular after `unload()` with
`refCount = 0` and after any `forceUnload()`.  `raw` is a pure read: the
embedding gives it no state output because the source mutates nothing. -/
theorem raw_ok_iff_alive (c : CachedAudioImpl) :
    (c.isAlive = true → c.raw = .ok c.audioBuffer) ∧
    (c.isAlive = false → c.raw = .error ("CachedAudio has been unloaded.")) ∧
    (c.refCount = 0 → c.unload.raw = .error ("CachedAudio has been unloaded.")) ∧
    c.forceUnload.raw = .error ("CachedAudio has been unloaded.") := by
  refine ⟨fun h => ?_, fun h => ?_, fun h => ?_, rfl⟩
  · simp [CachedAudioImpl.raw, CachedAudioImpl.isAlive] at h ⊢
    simp [h]
  · simp [CachedAudioImpl.raw, CachedAudioImpl.isAlive] at h ⊢
    simp [h]
  · simp [CachedAudioImpl.unload, CachedAudioImpl.raw, h]

/-- C10 witness: a live entry yields its buffer; after `unload()` at
`refCount = 0` the same entry's `raw()` throws. -/
theorem raw_ok_iff_alive_witness :
    ({ audioBuffer := 7 : CachedAudioImpl }.raw = .ok 7) ∧
    ({ audioBuffer := 7 : CachedAudioImpl }.unload.raw =
      .error ("CachedAudio has been unloaded.")) := by
  exact ⟨(raw_ok_iff_alive { audioBuffer := 7 }).1 rfl,
    (raw_ok_iff_alive { audioBuffer := 7 }).2.2.1 rfl⟩

/-- C2: requested modes `"stream"` and `"full"` are returned verbatim; for
`"auto"`, a throwing probe, a not-ok response, or a missing/unparseable
`Content-Length` all resolve to `"stream"`, and a parsed size resolves to
`"full"` exactly when it is strictly below the 10 MB threshold. -/
theorem resolveLoadMode_spec :
    (∀ p, resolveLoadMode .stream p = .stream) ∧
    (∀ p, resolveLoadMode .full p = .full) ∧
    resolveLoadMode .auto .throws = .stream ∧
    (∀ cl, resolveLoadMode .auto (.resp ⟨false, cl⟩) = .stream) ∧
    resolveLoadMode .auto (.resp ⟨true, none⟩) = .stream ∧
    (∀ s, jsParseIntDec s = none →
      resolveLoadMode .auto (.resp ⟨true, some s⟩) = .stream) ∧
    (∀ s n, jsParseIntDec s = some n →
      resolveLoadMode .auto (.resp ⟨true, some s⟩) =
        if n < AUTO_LOAD_THRESHOLD then .full else .stream) := by
  refine ⟨fun _ => rfl, fun _ => rfl, rfl, fun _ => rfl, rfl, fun s h => ?_, fun s n h => ?_⟩
  · by_cases hs : s = ""
    · subst hs; rfl
    · simp [resolveLoadMode, hs, h]
  · have hs : s ≠ "" := by
      intro he
      rw [he] at h
      have hnone : jsParseIntDec ("") = none := by decide
      rw [hnone] at h
      exact Option.noConfusion h
    simp [resolveLoadMode, hs, h]

/-- C2 witness: a 5 MB `Content-Length` resolves to `"full"`, a 20 MB one to
`"stream"`, and a throwing probe to `"stream"`. -/
theorem resolveLoadMode_witness :
    resolveLoadMode .auto (.resp ⟨true, some ("5242880")⟩) = .full ∧
    resolveLoadMode .auto (.resp ⟨true, some ("20971520")⟩) = .stream ∧
    resolveLoadMode .auto .throws = .stream := by
  refine ⟨?_, ?_, resolveLoadMode_spec.2.2.1⟩
  · rw [resolveLoadMode_spec.2.2.2.2.2.2 ("5242880") 5242880 (by decide)]
    decide
  · rw [resolveLoadMode_spec.2.2.2.2.2.2 ("20971520") 20971520 (by decide)]
    decide

/-- C6 counterexample: `getVolume()` is a public channel operation with no
removed-guard in the source; on a removed channel it succeeds and returns the
stored volume instead of raising, refuting "every public channel operation
fails synchronously after remove()". -/
theorem removed_channel_getVolume_succeeds :
    removedChannel.removed = true ∧
    removedChannel.getVolume = .ok 1 ∧
    removedChannel.isMuted = .ok false ∧
    removedChannel.getName = .ok ("bgm") := by
  exact ⟨rfl, rfl, rfl, rfl⟩

/-- C6 amended: after `remove()`, exactly the operations guarded by
`ensureNotRemoved` — `play`, `createChannel`, `getChannel`, `getChannels`,
`setVolume`, `mute`, `unmute`, `getTokens` — fail synchronously and leave the
state unchanged (an error carries no updated state), while the plain
accessors `getVolume`, `isMuted`, `isRemoved`, `getName` still succeed. -/
theorem removed_channel_guarded_ops_fail (c : Channel) (h : c.removed = true) :
    (∀ tok, c.play tok = .error ("Channel has been removed and cannot be used.")) ∧
    (∀ n, c.createChannel n = .error ("Channel has been removed and cannot be used.")) ∧
    (∀ n, c.getChannel n = .error ("Channel has been removed and cannot be used.")) ∧
    c.getChannels = .error ("Channel has been removed and cannot be used.") ∧
    (∀ v, c.setVolume v = .error ("Channel has been removed and cannot be used.")) ∧
    (∀ b, c.mute b = .error ("Channel has been removed and cannot be used.")) ∧
    c.unmute = .error ("Channel has been removed and cannot be used.") ∧
    c.getTokens = .error ("Channel has been removed and cannot be used.") ∧
    c.getVolume = .ok c.volume ∧
    c.isMuted = .ok c.muted ∧
    c.isRemoved = .ok true ∧
    c.getName = .ok c.name := by
  refine ⟨fun tok => ?_, fun n => ?_, fun n => ?_, ?_,
    fun v => ?_, fun b => ?_, ?_, ?_, rfl, rfl, ?_, rfl⟩ <;>
    simp [Channel.play, Channel.createChannel, Channel.getChannel,
      Channel.getChannels, Channel.setVolume, Channel.mute, Channel.unmute,
      Channel.getTokens, Channel.isRemoved, Channel.ensureNotRemoved, h,
      Bind.bind, Except.bind]

/-- C6 witness: the guarded operations all fail on the concrete removed
channel, while `getVolume` keeps succeeding on it. -/
theorem removed_channel_guarded_ops_witness :
    removedChannel.play 3 = .error ("Channel has been removed and cannot be used.") ∧
    removedChannel.setVolume (1/2) =
      .error ("Channel has been removed and cannot be used.") ∧
    removedChannel.getVolume = .ok 1 := by
  have h := removed_channel_guarded_ops_fail removedChannel rfl
  exact ⟨h.1 3, h.2.2.2.2.1 (1/2), h.2.2.2.2.2.2.2.2.1⟩

/-- C1: on a live channel with finite token limit `L ≥ 1` holding at most `L`
attached tokens, `play()` succeeds; when exactly `L` tokens are attached it
evicts precisely the oldest-attached token (the head of the insertion order)
— stopped, and thereby synchronously detached, before the new token is
created and attached — and below the limit it evicts nothing; in both cases
the attached-token count stays at or below `L`. -/
theorem play_admission_evicts_oldest_and_bounds
    (c : Channel) (L : ℕ) (newTok : Nat)
    (hrem : c.removed = false) (hlim : c.limit = (L : ℕ∞)) (hL : 1 ≤ L)
    (hlen : c.tokens.length ≤ L) :
    ∃ c2 evicted, c.play newTok = .ok (c2, evicted) ∧
      (c.tokens.length = L →
        evicted = c.tokens.head? ∧ c2.tokens.length = L) ∧
      (c.tokens.length < L →
        evicted = none ∧ c2.tokens.length = c.tokens.length + 1) ∧
      c2.tokens.length ≤ L := by
  by_cases hfull : L ≤ c.tokens.length
  · have hEq : c.tokens.length = L := le_antisymm hlen hfull
    have hne : c.tokens ≠ [] := by
      intro hnil
      rw [hnil] at hEq
      simp at hEq
      omega
    obtain ⟨t, rest, hts⟩ : ∃ t rest, c.tokens = t :: rest := by
      cases hcase : c.tokens with
      | nil => exact absurd hcase hne
      | cons t rest => exact ⟨t, rest, rfl⟩
    have hrest : rest.length + 1 = L := by
      rw [hts] at hEq
      simpa using hEq
    have hge : (((t :: rest).length : ℕ∞) ≥ c.limit) := by
      rw [← hts, hlim]
      exact_mod_cast hfull
    refine ⟨{ c with tokens := rest ++ [newTok] }, some t, ?_, ?_, ?_, ?_⟩
    · simp only [Channel.play, Channel.ensureNotRemoved, hrem, Bool.false_eq_true,
        if_false, Bind.bind, Except.bind, hts]
      rw [if_pos hge]
      rfl
    · intro _
      rw [hts]
      refine ⟨rfl, ?_⟩
      simp only [List.length_append, List.length_cons, List.length_nil]
      omega
    · intro hlt
      omega
    · simp only [List.length_append, List.length_cons, List.length_nil]
      omega
  · push_neg at hfull
    have hlt : ¬ ((c.tokens.length : ℕ∞) ≥ c.limit) := by
      rw [hlim]
      intro hc
      exact absurd (by exact_mod_cast hc) (not_le.mpr hfull)
    refine ⟨{ c with tokens := c.tokens ++ [newTok] }, none, ?_, ?_, ?_, ?_⟩
    · simp only [Channel.play, Channel.ensureNotRemoved, hrem, Bool.false_eq_true,
        if_false, Bind.bind, Except.bind]
      rw [if_neg hlt]
      rfl
    · intro hEq
      omega
    · intro _
      simp
    · simp only [List.length_append, List.length_cons, List.length_nil]
      omega

/-- C1 witness: playing on a live channel at its limit of 2 evicts the
oldest-attached token and keeps the count at 2. -/
theorem play_admission_witness :
    ∃ c2 evicted, fullChannel.play 12 = .ok (c2, evicted) ∧
      (fullChannel.tokens.length = 2 →
        evicted = fullChannel.tokens.head? ∧ c2.tokens.length = 2) ∧
      (fullChannel.tokens.length < 2 →
        evicted = none ∧ c2.tokens.length = fullChannel.tokens.length + 1) ∧
      c2.tokens.length ≤ 2 :=
  play_admission_evicts_oldest_and_bounds fullChannel 2 12 rfl rfl
    (by decide) (by decide)

/-- C7: on a state with no live entry and no in-flight load for the path, two
overlapping `load(path)` calls start exactly one fetch-and-decode — the first
registers a promise, the second joins that same promise, so both observe the
identical settlement value; a success stores the entry and clears the
in-flight marker, a decode failure clears the marker while the shared
promise's rejection reaches every waiter.  A `load` while a live entry exists
returns that entry unchanged. -/
theorem audioCache_load_coalesces (s : AudioCache) (p : String) :
    (∀ e, s.cache.lookup p = some e → e ∈ s.aliveEntries →
      s.load p = (.hit e, s)) ∧
    ((∀ e, s.cache.lookup p = some e → e ∉ s.aliveEntries) →
      s.loadingPromises.lookup p = none →
      ∃ pid s1 s2,
        s.load p = (.started pid, s1) ∧
        s1.load p = (.joined pid, s2) ∧
        s2.doLoadCount = s.doLoadCount + 1 ∧
        (∀ settle : Nat → Nat,
          LoadResult.value (.started pid) settle =
            LoadResult.value (.joined pid) settle) ∧
        (∀ entry, (s2.settleOk p entry).cache.lookup p = some entry ∧
          (s2.settleOk p entry).loadingPromises.lookup p = none) ∧
        (s2.settleErr p).loadingPromises.lookup p = none) := by
  constructor
  · intro e he hmem
    simp [AudioCache.load, he, hmem]
  · intro hdead hload
    have hfresh :
        s.load p = AudioCache.loadFresh s p := by
      cases hc : s.cache.lookup p with
      | none => simp [AudioCache.load, hc]
      | some e => simp [AudioCache.load, hc, hdead e hc]
    refine ⟨s.nextPromise,
      { s with loadingPromises := (p, s.nextPromise) :: s.loadingPromises,
               nextPromise := s.nextPromise + 1,
               doLoadCount := s.doLoadCount + 1 },
      { s with loadingPromises := (p, s.nextPromise) :: s.loadingPromises,
               nextPromise := s.nextPromise + 1,
               doLoadCount := s.doLoadCount + 1 },
      ?_, ?_, rfl, fun _ => rfl, fun entry => ⟨?_, ?_⟩, ?_⟩
    · rw [hfresh]
      simp [AudioCache.loadFresh, hload]
    · cases hc : s.cache.lookup p with
      | none => simp [AudioCache.load, AudioCache.loadFresh, hc, hload, List.lookup]
      | some e =>
        simp [AudioCache.load, AudioCache.loadFresh, hc, hload, hdead e hc,
          List.lookup]
    · simp [AudioCache.settleOk, List.lookup]
    · simp only [AudioCache.settleOk]
      exact lookup_filter_ne _ _
    · simp only [AudioCache.settleErr]
      exact lookup_filter_ne _ _

/-- C7 witness: two overlapping `load("a.mp3")` calls on the empty cache join
one promise, with exactly one fetch-and-decode started. -/
theorem audioCache_load_coalesces_witness :
    ∃ pid s1 s2,
      emptyCache.load ("a.mp3") = (.started pid, s1) ∧
      s1.load ("a.mp3") = (.joined pid, s2) ∧
      s2.doLoadCount = emptyCache.doLoadCount + 1 ∧
      (∀ settle : Nat → Nat,
        LoadResult.value (.started pid) settle =
          LoadResult.value (.joined pid) settle) ∧
      (∀ entry, (s2.settleOk ("a.mp3") entry).cache.lookup ("a.mp3") = some entry ∧
        (s2.settleOk ("a.mp3") entry).loadingPromises.lookup ("a.mp3") = none) ∧
      (s2.settleErr ("a.mp3")).loadingPromises.lookup ("a.mp3") = none :=
  (audioCache_load_coalesces emptyCache ("a.mp3")).2
    (fun _e he => Option.noConfusion he) rfl

/-- C5 counterexample: two consecutive `stop()` calls on a fresh token each
run `doStop` — there is no terminal-state guard — so the token emits the
terminal `"stop"` event twice, refuting "each terminal event is emitted at
most once over the token's lifetime, including repeated stop() calls". -/
theorem stop_twice_emits_stop_twice :
    ((SoundToken.initToken.stop 0).stop 0).log = ["stop", "stop"] ∧
    ((SoundToken.initToken.stop 0).stop 0).log.count ("stop") = 2 := by
  decide

/-- C5 amended: each `stop()` call with non-positive (defaulted) fade
duration performs the terminal transition and emits exactly one further
`"stop"` event, with no terminal-state guard, so over a token's lifetime
`"stop"` may be emitted several times (repeated `stop()` calls, or `stop()`
after a natural end, each re-emit it); at-most-once delivery holds only for
`once`-registered listeners, which the dispatcher removes on first fire, not
for the emission itself. -/
theorem stop_immediate_emits_one_stop (s : SoundToken) (fd : ℚ) (hfd : fd ≤ 0) :
    (s.stop fd).log = s.log ++ ["stop"] ∧
    (s.stop fd).isPlaying = false ∧
    (s.stop fd).isPaused = false := by
  have hnot : ¬ fd > 0 := not_lt.mpr hfd
  unfold SoundToken.stop
  rw [if_neg hnot]
  exact ⟨rfl, rfl, rfl⟩

/-- C5 witness: an immediate `stop()` on a fresh token emits exactly one
`"stop"`. -/
theorem stop_immediate_witness :
    (SoundToken.initToken.stop 0).log = SoundToken.initToken.log ++ ["stop"] ∧
    (SoundToken.initToken.stop 0).isPlaying = false ∧
    (SoundToken.initToken.stop 0).isPaused = false :=
  stop_immediate_emits_one_stop SoundToken.initToken 0 le_rfl

/-- C4: calling `setVolume` while a fade-out `stop({fadeDuration: D})` with
`D > 0` is pending cancels the pending fade; cancellation resolves the fade's
completion signal, whose chained `doStop` continuation runs as the next
microtask — before any timer can fire — so the token reaches the terminal
stopped state and emits `"stop"` immediately, without waiting out the
remaining fade duration, and the fade's own later timeout is a no-op. -/
theorem setVolume_cancels_pending_fade_stop
    (s : SoundToken) (fid : Nat) (f : FadeTokenImpl) (v : ℚ)
    (hcur : s.currentFade = some fid)
    (hf : s.fades.get? fid = some f)
    (hatt : f.stopAttached = true)
    (hcan : f.cancelled = false)
    (hfin : f.finishedInternal = false)
    (hres : f.resolved = false)
    (htasks : s.tasks = []) :
    ((s.setVolume v).fades.get? fid).map FadeTokenImpl.isCancelled = some true ∧
    (s.setVolume v).currentFade = none ∧
    (s.setVolume v).tasks = [.deferredStop] ∧
    (s.setVolume v).runTasks.isPlaying = false ∧
    (s.setVolume v).runTasks.isPaused = false ∧
    (s.setVolume v).runTasks.log = s.log ++ ["stop"] ∧
    (s.setVolume v).runTasks.fireFadeTimeout fid = (s.setVolume v).runTasks := by
  have hlt : fid < s.fades.length := by
    rw [List.get?_eq_getElem?] at hf
    exact (List.getElem?_eq_some_iff.mp hf).1
  have hgetAll : ∀ g : FadeTokenImpl, (s.fades.set fid g)[fid]? = some g := by
    intro g
    exact List.getElem?_set_eq_of_lt _ (by simpa using hlt)
  have hgetAll2 : ∀ g : FadeTokenImpl, (s.fades.set fid g).get? fid = some g := by
    intro g
    rw [List.get?_eq_getElem?]
    exact hgetAll g
  have hcf : s.cancelFade fid = ({ s with fades := s.fades.set fid { f with cancelled := true, resolved := true }, tasks := s.tasks ++ [.deferredStop] }) := by
    simp only [SoundToken.cancelFade, hf, hcan, hfin, Bool.or_false, Bool.false_eq_true,
      if_false, SoundToken.resolveFade, SoundToken.setFade, List.set_set, hgetAll,
      hgetAll2, hres, hatt, if_true]
  have hsv : s.setVolume v = ({ s with fades := s.fades.set fid { f with cancelled := true, resolved := true }, tasks := s.tasks ++ [.deferredStop], currentFade := none, volume := clamp01 v, gain := if !s.isMuted then .const (clamp01 v) else s.gain }) := by
    simp only [SoundToken.setVolume, hcur, hcf]
    by_cases hm : s.isMuted <;> simp [hm]
  rw [hsv, htasks]
  refine ⟨?_, rfl, rfl, ?_, ?_, ?_, ?_⟩
  · simp [hgetAll, hgetAll2, FadeTokenImpl.isCancelled]
  · simp [SoundToken.runTasks, SoundToken.doStop]
  · simp [SoundToken.runTasks, SoundToken.doStop]
  · simp [SoundToken.runTasks, SoundToken.doStop]
  · simp [SoundToken.runTasks, SoundToken.doStop, SoundToken.fireFadeTimeout, hgetAll,
      hgetAll2, FadeTokenImpl.isCancelled, FadeTokenImpl.isFinished]

/-- C4 witness: `setVolume(1/2)` during the pending 500 ms fade-out stop
cancels the fade and the queued continuation stops the token at once. -/
theorem setVolume_cancels_pending_fade_stop_witness :
    ((pendingFadeStopToken.setVolume (1/2)).fades.get? 0).map
      FadeTokenImpl.isCancelled = some true ∧
    (pendingFadeStopToken.setVolume (1/2)).currentFade = none ∧
    (pendingFadeStopToken.setVolume (1/2)).tasks = [.deferredStop] ∧
    (pendingFadeStopToken.setVolume (1/2)).runTasks.isPlaying = false ∧
    (pendingFadeStopToken.setVolume (1/2)).runTasks.isPaused = false ∧
    (pendingFadeStopToken.setVolume (1/2)).runTasks.log =
      pendingFadeStopToken.log ++ ["stop"] ∧
    (pendingFadeStopToken.setVolume (1/2)).runTasks.fireFadeTimeout 0 =
      (pendingFadeStopToken.setVolume (1/2)).runTasks :=
  setVolume_cancels_pending_fade_stop pendingFadeStopToken 0
    { endVolume := 0, stopAttached := true } (1/2)
    (by decide) (by decide) rfl rfl rfl rfl (by decide)

/-- C3 counterexample: the source sets `this.volume = from` when a positive
fade begins, so with the token's stored volume at 1, after `fade(0, 1, 1000)`
starts (and before it completes) `getVolume()` returns 0 — the fade's `from`
value — not the pre-fade stored volume 1, refuting the claim as stated. -/
theorem fade_midfade_volume_counterexample :
    SoundToken.initToken.getVolume = 1 ∧
    (fadeMidToken.fades.get? 0).map FadeTokenImpl.isFinished = some false ∧
    (fadeMidToken.fades.get? 0).map FadeTokenImpl.isCancelled = some false ∧
    fadeMidToken.getVolume = 0 ∧
    fadeMidToken.getVolume ≠ SoundToken.initToken.getVolume := by
  decide

/-- C3 amended: for `fade(from, to, d)` with `d > 0`, the token's stored
volume is set to the clamped `from` when the fade starts, so `getVolume()`
read after the fade has started and before it completes returns clamped
`from` (not, in general, the pre-fade stored value — they coincide only when
`from` equals the pre-fade volume); the stored volume becomes the clamped
`to` when the operation naturally completes via its timer, which also leaves
the operation Finished. -/
theorem fade_midfade_reports_clamped_start (s : SoundToken) (a b d : ℚ)
    (hd : 0 < d) :
    (s.fade a b d).1.getVolume = clamp01 a ∧
    (((s.fade a b d).1.fades.get? (s.fade a b d).2).map
      FadeTokenImpl.isFinished = some false) ∧
    (((s.fade a b d).1.fades.get? (s.fade a b d).2).map
      FadeTokenImpl.isCancelled = some false) ∧
    ((s.fade a b d).1.fireFadeTimeout (s.fade a b d).2).getVolume = clamp01 b ∧
    ((((s.fade a b d).1.fireFadeTimeout (s.fade a b d).2).fades.get?
      (s.fade a b d).2).map FadeTokenImpl.isFinished = some true) := by
  have hd0 : ¬ (jsMax 0 d = 0) := by
    unfold jsMax
    rw [if_pos (le_of_lt hd)]
    exact ne_of_gt hd
  obtain ⟨s1, hs1⟩ : ∃ s1, s.cancelCurrent = s1 := ⟨_, rfl⟩
  have hfade : s.fade a b d = ({ s1 with volume := clamp01 a, gain := .ramp (clamp01 a) (clamp01 b), fades := s1.fades ++ [{ endVolume := clamp01 b }], currentFade := some s1.fades.length }, s1.fades.length) := by
    simp only [SoundToken.fade, hs1]
    rw [if_neg hd0]
    by_cases hm : s1.isMuted <;> simp [hm]
  rw [hfade]
  have hn : (s1.fades ++ [({ endVolume := clamp01 b } : FadeTokenImpl)])[s1.fades.length]? = some ({ endVolume := clamp01 b } : FadeTokenImpl) :=
    List.getElem?_concat_length _ _
  have hn2 : (s1.fades ++ [({ endVolume := clamp01 b } : FadeTokenImpl)]).get? s1.fades.length = some ({ endVolume := clamp01 b } : FadeTokenImpl) := by
    rw [List.get?_eq_getElem?]
    exact hn
  have hlen : s1.fades.length < (s1.fades ++ [({ endVolume := clamp01 b } : FadeTokenImpl)]).length := by
    simp
  have hsetAll : ∀ g : FadeTokenImpl, ((s1.fades ++ [({ endVolume := clamp01 b } : FadeTokenImpl)]).set s1.fades.length g)[s1.fades.length]? = some g := by
    intro g
    exact List.getElem?_set_eq_of_lt _ (by simp)
  have hsetAll2 : ∀ g : FadeTokenImpl, ((s1.fades ++ [({ endVolume := clamp01 b } : FadeTokenImpl)]).set s1.fades.length g).get? s1.fades.length = some g := by
    intro g
    rw [List.get?_eq_getElem?]
    exact hsetAll g
  refine ⟨rfl, ?_, ?_, ?_, ?_⟩
  · simp [hn2, FadeTokenImpl.isFinished]
  · simp [hn2, FadeTokenImpl.isCancelled]
  · simp only [SoundToken.fireFadeTimeout, hn2, hn, FadeTokenImpl.isCancelled,
      FadeTokenImpl.isFinished, Bool.not_false, Bool.and_self, if_true,
      SoundToken.finishFade, SoundToken.setFade, List.set_set, hsetAll, hsetAll2,
      SoundToken.setVolume, SoundToken.cancelFade, SoundToken.resolveFade,
      SoundToken.getVolume]
    by_cases hm : s1.isMuted <;> simp [hm, clamp01_idem]
  · simp only [SoundToken.fireFadeTimeout, hn2, hn, FadeTokenImpl.isCancelled,
      FadeTokenImpl.isFinished, Bool.not_false, Bool.and_self, if_true,
      SoundToken.finishFade, SoundToken.setFade, List.set_set, hsetAll, hsetAll2,
      SoundToken.setVolume, SoundToken.cancelFade, SoundToken.resolveFade,
      SoundToken.getVolume]
    by_cases hm : s1.isMuted <;> simp [hm, clamp01_idem, hsetAll, hsetAll2, List.set_set,
      FadeTokenImpl.isFinished]

/-- C3 witness: on a fresh token, `fade(0.5, 0.9, 1000)` yields mid-fade
volume 0.5 and, once its timer fires, volume 0.9 with the operation
Finished. -/
theorem fade_midfade_witness :
    (SoundToken.initToken.fade (1/2) (9/10) 1000).1.getVolume = clamp01 (1/2) ∧
    (((SoundToken.initToken.fade (1/2) (9/10) 1000).1.fades.get?
      (SoundToken.initToken.fade (1/2) (9/10) 1000).2).map
      FadeTokenImpl.isFinished = some false) ∧
    (((SoundToken.initToken.fade (1/2) (9/10) 1000).1.fades.get?
      (SoundToken.initToken.fade (1/2) (9/10) 1000).2).map
      FadeTokenImpl.isCancelled = some false) ∧
    ((SoundToken.initToken.fade (1/2) (9/10) 1000).1.fireFadeTimeout
      (SoundToken.initToken.fade (1/2) (9/10) 1000).2).getVolume =
        clamp01 (9/10) ∧
    ((((SoundToken.initToken.fade (1/2) (9/10) 1000).1.fireFadeTimeout
      (SoundToken.initToken.fade (1/2) (9/10) 1000).2).fades.get?
      (SoundToken.initToken.fade (1/2) (9/10) 1000).2).map
      FadeTokenImpl.isFinished = some true) :=
  fade_midfade_reports_clamped_start SoundToken.initToken (1/2) (9/10) 1000
    (by norm_num)

/-- C9: `mute()`/`unmute()` while a FadeOperation is active and unresolved
fast-forwards it: the token's stored volume becomes the fade's target volume,
the operation ends Finished (its `cancel()` inside the nested `setVolume`
no-ops because `finishedInternal` is already set) and not Cancelled, the
fade is detached, and the mute/unmute scaling is applied to the output (0
when muting, the target when unmuting).  `hclamp` records that fade targets
are clamped at creation, which holds for every fade the code constructs. -/
theorem mute_fast_forwards_active_fade
    (s : SoundToken) (fid : Nat) (f : FadeTokenImpl) (b : Bool)
    (hcur : s.currentFade = some fid)
    (hf : s.fades.get? fid = some f)
    (hfin : f.finishedInternal = false)
    (hcan : f.cancelled = false)
    (hclamp : clamp01 f.endVolume = f.endVolume) :
    (s.mute b).getVolume = f.getTargetVolume ∧
    ((s.mute b).fades.get? fid).map FadeTokenImpl.isFinished = some true ∧
    ((s.mute b).fades.get? fid).map FadeTokenImpl.isCancelled = some false ∧
    (s.mute b).currentFade = none ∧
    (s.mute b).isMuted = b ∧
    (s.mute b).gain = .const (if b then 0 else f.getTargetVolume) := by
  have hlt : fid < s.fades.length := by
    rw [List.get?_eq_getElem?] at hf
    exact (List.getElem?_eq_some_iff.mp hf).1
  have hgetAll : ∀ g : FadeTokenImpl, (s.fades.set fid g)[fid]? = some g := by
    intro g
    exact List.getElem?_set_eq_of_lt _ (by simpa using hlt)
  have hgetAll2 : ∀ g : FadeTokenImpl, (s.fades.set fid g).get? fid = some g := by
    intro g
    rw [List.get?_eq_getElem?]
    exact hgetAll g
  simp only [SoundToken.mute, hcur, hf, FadeTokenImpl.isFinished,
    FadeTokenImpl.isCancelled, FadeTokenImpl.getTargetVolume, hfin, hcan,
    Bool.not_false, Bool.and_self, if_true, SoundToken.finishFade,
    SoundToken.setFade, SoundToken.setVolume, SoundToken.cancelFade,
    SoundToken.resolveFade, SoundToken.getVolume, List.set_set, hgetAll,
    hgetAll2, hclamp]
  by_cases hb : b <;> by_cases hr : f.resolved <;> by_cases ha : f.stopAttached <;>
    simp [hb, hr, ha, hgetAll, hgetAll2, List.set_set, FadeTokenImpl.isFinished,
      FadeTokenImpl.isCancelled, SoundToken.getVolume, hclamp, SoundToken.setFade,
      SoundToken.resolveFade]

/-- C9 witness: `mute()` during the in-flight fade-in of `fadeMidToken`
leaves the stored volume at the fade target 1, the operation Finished and
not Cancelled, and the output scaled to 0. -/
theorem mute_fast_forwards_witness :
    (fadeMidToken.mute true).getVolume =
      FadeTokenImpl.getTargetVolume { endVolume := 1 } ∧
    ((fadeMidToken.mute true).fades.get? 0).map
      FadeTokenImpl.isFinished = some true ∧
    ((fadeMidToken.mute true).fades.get? 0).map
      FadeTokenImpl.isCancelled = some false ∧
    (fadeMidToken.mute true).currentFade = none ∧
    (fadeMidToken.mute true).isMuted = true ∧
    (fadeMidToken.mute true).gain =
      .const (if true then 0 else FadeTokenImpl.getTargetVolume { endVolume := 1 }) :=
  mute_fast_forwards_active_fade fadeMidToken 0 { endVolume := 1 } true
    (by decide) (by decide) rfl rfl (by decide)

end Sound